import Mathlib

/-!
Verification of the SafeScale cluster subsystem (fork dorgan-csgroup/SafeScale).

This file shallowly embeds the parts of the cluster lifecycle controller that
the checked claims are about:
  * the state dispatch of `cluster.Start` and `cluster.Stop`
    (lib/server/resources/operations/cluster.go),
  * the metadata mutation of `ClusterListener.Shrink`
    (lib/server/listeners/cluster.go),
  * the flavor-maker hook gating in `taskConfigureMaster`,
    `joinNodesFromList` and `GetState`,
  * the effect pipelines of `taskCreateMaster` / `taskCreateNode`,
  * the `Nodes v1 → v2` and `Network v1/v2 → v3` property upgrades
    (`updateNodesPropertyIfNeeded`, `updateNetworkPropertyIfNeeded`),
  * the count guards of `AddNodes` and `taskCreateNodes`,
  * the node selection of `DeleteLastNode`.

Go slices become `List`, Go `uint`/`int` counters become `Nat` (with explicit
handling of the one place where `uint` underflow matters), nil pointers and
absent properties become `Option`, and fallible calls return `Except` or are
driven by an explicit oracle of step outcomes.
-/

namespace SafeScale

/-- Cluster state enumeration. Modelled from the spec: the `clusterstate`
enum package itself is not among the sources, only its uses; the spec lists
the values `Unknown, Creating, Nominal, Degraded, Starting, Stopping,
Stopped, Removed`. -/
inductive ClusterState where
  | Unknown
  | Creating
  | Nominal
  | Degraded
  | Starting
  | Stopping
  | Stopped
  | Removed
deriving DecidableEq, Repr, Fintype

/-- A node record of the `Nodes` v2 property (`propertiesv2.ClusterNode`),
with the fields the sources read and write: `ID`, `NumericalID`, `Name`,
`PrivateIP`, `PublicIP`. An absent public IP is the empty string, as in the
source where a NotFound from `GetPublicIP` leaves the field at its zero
value. -/
structure ClusterNode where
  id : String
  numericalID : Nat
  name : String
  privateIP : String
  publicIP : String
deriving DecidableEq, Repr

/-- A node record of the legacy `Nodes` v1 property
(`propertiesv1.ClusterNode`): no `NumericalID`. -/
structure ClusterNodeV1 where
  id : String
  name : String
  privateIP : String
  publicIP : String
deriving DecidableEq, Repr

/-- The legacy `Nodes` v1 property payload (`propertiesv1.ClusterNodes`). -/
structure ClusterNodesV1 where
  masters : List ClusterNodeV1
  privateNodes : List ClusterNodeV1
  masterLastIndex : Nat
  privateLastIndex : Nat
deriving DecidableEq, Repr

/-- The `Nodes` v2 property payload (`propertiesv2.ClusterNodes`), with the
fields the sources use: `GlobalLastIndex`, `Masters`, `PrivateNodes`,
`MasterLastIndex`, `PrivateLastIndex`. -/
structure ClusterNodesV2 where
  globalLastIndex : Nat
  masters : List ClusterNode
  privateNodes : List ClusterNode
  masterLastIndex : Nat
  privateLastIndex : Nat
deriving DecidableEq, Repr

/-- The Go zero value of `propertiesv2.ClusterNodes`, which is what
`props.Alter(NodesV2, ...)` hands to its callback when the property was not
present yet. -/
def ClusterNodesV2.zero : ClusterNodesV2 :=
  { globalLastIndex := 0, masters := [], privateNodes := [],
    masterLastIndex := 0, privateLastIndex := 0 }

/- ----------------------------------------------------------------------
`cluster.Start` / `cluster.Stop` state dispatch
(lib/server/resources/operations/cluster.go, lines 1187-1352 and 1354-1506)
---------------------------------------------------------------------- -/

/-- The four ways `cluster.Start` can proceed after reading the current
state:
  * `noop`      — return nil immediately, without writing any property;
  * `waitFor`   — poll `GetState` every 5 s (up to 5 min) for the ongoing
                  transition to finish, then return;
  * `notAvailable` — return `fail.NotAvailableError`;
  * `restart`   — mark the cluster `Starting`, start the gateways, masters
                  and nodes through a task group, then mark it `Nominal`. -/
inductive StartAction where
  | noop
  | waitFor
  | notAvailable
  | restart
deriving DecidableEq, Repr, Fintype

/-- Transcription of the state dispatch at the top of `cluster.Start`:

    if prevState == clusterstate.Stopping || prevState == clusterstate.Stopped {
        return nil
    }
    if prevState == clusterstate.Starting { ...wait...; return }
    if prevState != clusterstate.Stopped {
        return fail.NotAvailableError(...)
    }
    ...restart logic: set Starting, start all hosts, set Nominal...
-/
def startAction (prevState : ClusterState) : StartAction :=
  if prevState = ClusterState.Stopping ∨ prevState = ClusterState.Stopped then
    StartAction.noop
  else if prevState = ClusterState.Starting then
    StartAction.waitFor
  else if prevState ≠ ClusterState.Stopped then
    StartAction.notAvailable
  else
    StartAction.restart

/-- The four ways `cluster.Stop` can proceed after reading the current
state (same reading as `StartAction`; `shutdown` marks the cluster
`Stopping`, stops nodes, masters then gateways, and marks it `Stopped`). -/
inductive StopAction where
  | noop
  | waitFor
  | notAvailable
  | shutdown
deriving DecidableEq, Repr, Fintype

/-- Transcription of the state dispatch at the top of `cluster.Stop`:

    if prevState == clusterstate.Stopped { return nil }
    if prevState == clusterstate.Stopping { ...wait...; return }
    if prevState != clusterstate.Nominal && prevState != clusterstate.Degraded {
        return fail.NotAvailableError(...)
    }
    ...set Stopping, stop all hosts, set Stopped...
-/
def stopAction (prevState : ClusterState) : StopAction :=
  if prevState = ClusterState.Stopped then
    StopAction.noop
  else if prevState = ClusterState.Stopping then
    StopAction.waitFor
  else if prevState ≠ ClusterState.Nominal ∧ prevState ≠ ClusterState.Degraded then
    StopAction.notAvailable
  else
    StopAction.shutdown

/- ----------------------------------------------------------------------
`ClusterListener.Shrink` metadata mutation
(lib/server/listeners/cluster.go, lines 446-483)
---------------------------------------------------------------------- -/

/-- How the Shrink metadata `Alter` can fail:
  * `invalidRequest` — "cannot shrink by %d nodes, only %d available";
  * `sliceBoundsPanic` — `nodesV2.PrivateNodes[:first-1]` with `first == 0`:
    `first` is a Go `uint`, so `first-1` wraps around and the slice
    expression panics with "slice bounds out of range". -/
inductive ShrinkErr where
  | invalidRequest
  | sliceBoundsPanic
deriving DecidableEq, Repr

/-- Transcription of the `props.Alter(NodesV2, ...)` callback in
`ClusterListener.Shrink`:

    length := uint(len(nodesV2.PrivateNodes))
    if length < count { return fail.InvalidRequestError(...) }
    first := length - count
    toRemove = nodesV2.PrivateNodes[first:]
    nodesV2.PrivateNodes = nodesV2.PrivateNodes[:first-1]

On success it returns the new `PrivateNodes` list and the `toRemove`
batch, in that order. -/
def shrinkAlter (privateNodes : List ClusterNode) (count : Nat) :
    Except ShrinkErr (List ClusterNode × List ClusterNode) :=
  let length := privateNodes.length
  if length < count then
    Except.error ShrinkErr.invalidRequest
  else
    let first := length - count
    let toRemove := privateNodes.drop first
    if first = 0 then
      Except.error ShrinkErr.sliceBoundsPanic
    else
      Except.ok (privateNodes.take (first - 1), toRemove)

/-- Transcription of the deferred restore-on-failure in
`ClusterListener.Shrink`: `nodesV2.PrivateNodes = append(nodesV2.PrivateNodes,
toRemove...)` appends the removed batch back to whatever the Alter left. -/
def shrinkRestore (kept toRemove : List ClusterNode) : List ClusterNode :=
  kept ++ toRemove

/- ----------------------------------------------------------------------
Flavor-maker hook gating
(unnamed tasks file `taskConfigureMaster`, and cluster.go
`joinNodesFromList` / `GetState`)
---------------------------------------------------------------------- -/

/-- Presence of the flavor `Makers` hooks the controller dereferences in
the embedded operations; `true` means the function pointer is non-nil.
(The hook bodies are opaque external behavior; only their nil-ness decides
the claims.) -/
structure Makers where
  configureNode : Bool
  configureMaster : Bool
  joinNodeToCluster : Bool
  joinMasterToCluster : Bool
  configureCluster : Bool
  getState : Bool
deriving DecidableEq, Repr

/-- Outcome of the flavor-hook portion of `taskConfigureMaster`:
  * `skipped` — guard false, no hook invoked, nil returned
    ("Not finding a callback isn't an error");
  * `invoked` — `makers.ConfigureMaster` called;
  * `nilDereference` — a nil function pointer is called, which panics in Go. -/
inductive HookCall where
  | skipped
  | invoked
  | nilDereference
deriving DecidableEq, Repr

/-- Transcription of the hook gating in `taskConfigureMaster`:

    if c.makers.ConfigureNode != nil {
        if xerr = c.makers.ConfigureMaster(task, c, p.Index, p.Host); ...
    }

The guard tests `ConfigureNode` but the call is to `ConfigureMaster`. -/
def taskConfigureMasterHookCall (m : Makers) : HookCall :=
  if m.configureNode then
    if m.configureMaster then HookCall.invoked else HookCall.nilDereference
  else
    HookCall.skipped

/-- Outcome of `joinNodesFromList`'s hook dispatch:
  * `configureClusterCall` — `JoinNodeToCluster` nil and `ConfigureCluster`
    defined, so `ConfigureCluster` runs and the function returns;
  * `perHostJoin` — `JoinNodeToCluster` invoked for each host in turn;
  * `skipped` — no hook invoked, nil returned;
  * `nilDereference` — a nil `JoinNodeToCluster` is called (Go panic). -/
inductive JoinNodesCall where
  | configureClusterCall
  | perHostJoin
  | skipped
  | nilDereference
deriving DecidableEq, Repr

/-- Transcription of the hook gating in `joinNodesFromList`:

    if c.makers.JoinNodeToCluster == nil {
        if c.makers.ConfigureCluster != nil { return c.makers.ConfigureCluster(task, c) }
    }
    if c.makers.JoinMasterToCluster != nil {
        for _, host := range hosts {
            if xerr := c.makers.JoinNodeToCluster(task, c, host); ...
        }
    }
    return nil

The loop's guard tests `JoinMasterToCluster` but the call inside is to
`JoinNodeToCluster`; with an empty host list the loop body never runs. -/
def joinNodesFromListHookCall (m : Makers) (hostsNonEmpty : Bool) : JoinNodesCall :=
  if ¬ m.joinNodeToCluster ∧ m.configureCluster then
    JoinNodesCall.configureClusterCall
  else if m.joinMasterToCluster ∧ hostsNonEmpty then
    if m.joinNodeToCluster then JoinNodesCall.perHostJoin
    else JoinNodesCall.nilDereference
  else
    JoinNodesCall.skipped

/-- Outcome of the hook dispatch in `cluster.GetState`:
  * `fromHook` — `makers.GetState` is non-nil and is invoked;
  * `notImplementedError` — nil hook: the function returns
    `fail.NotImplementedError("cluster maker does not define 'ForceGetState'")`. -/
inductive GetStateDispatch where
  | fromHook
  | notImplementedError
deriving DecidableEq, Repr

/-- Transcription of the hook gating in `cluster.GetState`:

    if c.makers.GetState != nil { state, xerr = c.makers.GetState(task, c) }
    else { state = clusterstate.Unknown; xerr = fail.NotImplementedError(...) }
-/
def getStateDispatch (m : Makers) : GetStateDispatch :=
  if m.getState then GetStateDispatch.fromHook
  else GetStateDispatch.notImplementedError

/- ----------------------------------------------------------------------
`taskCreateMaster` / `taskCreateNode` effect pipelines
(unnamed tasks file, node registration under `Alter(NodesV2)` and
cleanup-on-failure)
---------------------------------------------------------------------- -/

/-- The provider-side identity of a freshly created host, as read back by
the registration `Alter` (`rh.GetID()`, `rh.GetName()`, `GetPrivateIP`,
`GetPublicIP`; a NotFound public IP leaves the field empty). -/
structure HostInfo where
  id : String
  name : String
  privateIP : String
  publicIP : String
deriving DecidableEq, Repr

/-- The `&propertiesv2.ClusterNode{...}` literal built by both registration
`Alter` bodies: the host's identity plus the freshly incremented
`GlobalLastIndex` as `NumericalID`. -/
def newNode (h : HostInfo) (g : Nat) : ClusterNode :=
  { id := h.id, numericalID := g, name := h.name,
    privateIP := h.privateIP, publicIP := h.publicIP }

/-- The node-registration `Alter(NodesV2)` body shared by `taskCreateMaster`:
increment `GlobalLastIndex`, build a `ClusterNode` carrying the new value as
`NumericalID`, append it to `Masters`. -/
def registerMaster (h : HostInfo) (n : ClusterNodesV2) : ClusterNodesV2 :=
  let g := n.globalLastIndex + 1
  { n with globalLastIndex := g, masters := n.masters ++ [newNode h g] }

/-- The node-registration `Alter(NodesV2)` body of `taskCreateNode`: same as
`registerMaster` but appending to `PrivateNodes`. -/
def registerNode (h : HostInfo) (n : ClusterNodesV2) : ClusterNodesV2 :=
  let g := n.globalLastIndex + 1
  { n with globalLastIndex := g, privateNodes := n.privateNodes ++ [newNode h g] }

/-- Oracle for the outcome of each externally-effectful step of one
`CreateOne` run: `rh.Create`, the registration `Alter`, and the two
installation steps (`installProxyCacheClient`, `installNodeRequirements`).
The host deletion used for cleanup is taken to succeed. -/
structure CreateOneRun where
  hostCreateOk : Bool
  metadataAlterOk : Bool
  proxyCacheClientOk : Bool
  nodeRequirementsOk : Bool
deriving DecidableEq, Repr

/-- The observable state a `CreateOne` run touches: the cluster's `Nodes` v2
metadata and whether the provider-side host exists. -/
structure CreateOneState where
  nodes : ClusterNodesV2
  hostExists : Bool
deriving DecidableEq, Repr

/-- Transcription of `taskCreateMaster`'s effects after parameter
validation; the returned `Bool` is success. Control flow of the source:

    if _, xerr = rh.Create(...); xerr != nil { return nil, xerr }
    xerr = c.Alter(... registerMaster ...)
    if xerr != nil {
        if p.NoKeep { if derr := rh.Delete(task); ... }
        return nil, fail.Wrap(xerr, ...)
    }
    if xerr = c.installProxyCacheClient(...); xerr != nil { return nil, xerr }
    if xerr = c.installNodeRequirements(...); xerr != nil { return nil, xerr }
    return nil, nil

There is no deferred cleanup: only the metadata-failure branch deletes the
host, and nothing ever removes an appended metadata record. -/
def taskCreateMaster (run : CreateOneRun) (noKeep : Bool) (h : HostInfo)
    (st : CreateOneState) : Bool × CreateOneState :=
  if ¬ run.hostCreateOk then
    (false, st)
  else
    let st1 : CreateOneState := { st with hostExists := true }
    if ¬ run.metadataAlterOk then
      (false, if noKeep then { st1 with hostExists := false } else st1)
    else
      let st2 : CreateOneState := { st1 with nodes := registerMaster h st1.nodes }
      if ¬ run.proxyCacheClientOk then (false, st2)
      else if ¬ run.nodeRequirementsOk then (false, st2)
      else (true, st2)

/-- Transcription of `taskCreateNode`'s effects after parameter validation.
Unlike `taskCreateMaster`, a deferred cleanup installed right after
`rh.Create` deletes the host on ANY later failure when `NoKeep`:

    if _, xerr = rh.Create(...); xerr != nil { return nil, xerr }
    defer func() {
        if xerr != nil && p.NoKeep {
            if derr := rh.Delete(task); ... }
    }()
    xerr = c.Alter(... registerNode ...)
    if xerr != nil { return nil, fail.Wrap(xerr, ...) }
    if xerr = c.installProxyCacheClient(...); xerr != nil { return nil, xerr }
    if xerr = c.installNodeRequirements(...); xerr != nil { return nil, xerr }
    return rh, nil

Again nothing removes an appended metadata record. -/
def taskCreateNode (run : CreateOneRun) (noKeep : Bool) (h : HostInfo)
    (st : CreateOneState) : Bool × CreateOneState :=
  if ¬ run.hostCreateOk then
    (false, st)
  else
    let st1 : CreateOneState := { st with hostExists := true }
    if ¬ run.metadataAlterOk then
      (false, if noKeep then { st1 with hostExists := false } else st1)
    else
      let st2 : CreateOneState := { st1 with nodes := registerNode h st1.nodes }
      if ¬ run.proxyCacheClientOk then
        (false, if noKeep then { st2 with hostExists := false } else st2)
      else if ¬ run.nodeRequirementsOk then
        (false, if noKeep then { st2 with hostExists := false } else st2)
      else (true, st2)

/- ----------------------------------------------------------------------
Sequences of successful node registrations (numericalID uniqueness)
---------------------------------------------------------------------- -/

/-- One successful registration event: either a master or a private node,
with the host data it records. The cluster's exclusive `Alter` serializes
the registrations, so a set of (possibly concurrent) successful
CreateMaster/CreateNode calls is observed as one such sequence. -/
inductive CreateEvent where
  | master (h : HostInfo)
  | node (h : HostInfo)
deriving DecidableEq, Repr

/-- Apply one registration event to the `Nodes` v2 metadata. -/
def applyCreate (st : ClusterNodesV2) (e : CreateEvent) : ClusterNodesV2 :=
  match e with
  | CreateEvent.master h => registerMaster h st
  | CreateEvent.node h => registerNode h st

/-- Run a serialized sequence of registration events. -/
def runCreates (st : ClusterNodesV2) (evs : List CreateEvent) : ClusterNodesV2 :=
  evs.foldl applyCreate st

/-- The `NumericalID`s assigned by a serialized sequence of registrations,
in creation order: each event stores `GlobalLastIndex + 1`. -/
def assignedIDs (st : ClusterNodesV2) : List CreateEvent → List Nat
  | [] => []
  | e :: evs => (st.globalLastIndex + 1) :: assignedIDs (applyCreate st e) evs

/-- All `NumericalID`s recorded in the metadata, masters first (the order
of `nodesV2.Masters ++ nodesV2.PrivateNodes`). -/
def recordedIDs (st : ClusterNodesV2) : List Nat :=
  (st.masters ++ st.privateNodes).map ClusterNode.numericalID

/-- Well-formedness of the `Nodes` v2 metadata: every recorded
`NumericalID` is at most `GlobalLastIndex` (IDs are handed out by
incrementing it and never reused) and the recorded IDs are pairwise
distinct. Holds for the zero value and is preserved by registration. -/
def NodesWF (st : ClusterNodesV2) : Prop :=
  (∀ n ∈ st.masters ++ st.privateNodes, n.numericalID ≤ st.globalLastIndex) ∧
    (recordedIDs st).Nodup

instance (st : ClusterNodesV2) : Decidable (NodesWF st) := by
  unfold NodesWF; infer_instance

/- ----------------------------------------------------------------------
`AddNodes` / `taskCreateNodes` count guards
---------------------------------------------------------------------- -/

/-- How the count guards of node creation resolve:
  * `invalidParameter` — `fail.InvalidParameterError` returned before any
    metadata access;
  * `zeroCountSuccess` — the "no nodes to create" branch returning nil;
  * `proceed` — go on to create nodes. -/
inductive CreateNodesGuard where
  | invalidParameter
  | zeroCountSuccess
  | proceed
deriving DecidableEq, Repr

/-- Transcription of the count guard at the top of `cluster.AddNodes`:

    if count == 0 {
        return nil, fail.InvalidParameterError("count", "must be an int > 0")
    }
-/
def addNodesGuard (count : Nat) : CreateNodesGuard :=
  if count = 0 then CreateNodesGuard.invalidParameter
  else CreateNodesGuard.proceed

/-- Transcription of the count guards of `taskCreateNodes`:

    if p.Count < 1 {
        return nil, fail.InvalidParameterError("params.Count", "cannot be an integer less than 1")
    }
    ...
    if p.Count == 0 {
        logrus.Debugf("[cluster %s] no nodes to create.", clusterName)
        return nil, nil
    }
-/
def taskCreateNodesGuard (count : Nat) : CreateNodesGuard :=
  if count < 1 then CreateNodesGuard.invalidParameter
  else if count = 0 then CreateNodesGuard.zeroCountSuccess
  else CreateNodesGuard.proceed

/-- `cluster.AddNodes` restricted to what the count guard decides: with
`count = 0` it returns the InvalidParameter error before touching the
metadata; otherwise the `count` spawned `taskCreateNode` subtasks register
their nodes (successful runs listed by the `hosts` oracle). -/
def AddNodes (count : Nat) (hosts : List HostInfo) (st : ClusterNodesV2) :
    Except Unit Unit × ClusterNodesV2 :=
  if count = 0 then
    (Except.error (), st)
  else
    (Except.ok (), runCreates st ((hosts.take count).map CreateEvent.node))

/- ----------------------------------------------------------------------
`DeleteLastNode` node selection
(lib/server/resources/operations/cluster.go, lines 1761-1808)
---------------------------------------------------------------------- -/

/-- How `DeleteLastNode` gets past its node-selection prologue:
  * `panicked` — the access `nodesV2.PrivateNodes[len(...)-1]` was out of
    bounds (empty list: index -1), a Go runtime panic;
  * `notFound` — the guard `if node == nil` fired and
    `fail.NotFoundError("failed to find last node")` was returned;
  * `proceeds n` — node `n` was selected and deletion continues. -/
inductive DeleteLastNodeOutcome where
  | panicked
  | notFound
  | proceeds (n : ClusterNode)
deriving DecidableEq, Repr

/-- Transcription of the selection prologue of `DeleteLastNode`:

    node = nodesV2.PrivateNodes[len(nodesV2.PrivateNodes)-1]
    ...
    if node == nil { return nil, fail.NotFoundError("failed to find last node") }

The list entries are appended as `&propertiesv2.ClusterNode{...}` and are
never nil, so once the index access succeeds the selected node is non-nil
and the `notFound` guard cannot fire. -/
def deleteLastNodeSelect (privateNodes : List ClusterNode) : DeleteLastNodeOutcome :=
  match privateNodes.get? (privateNodes.length - 1) with
  | none => DeleteLastNodeOutcome.panicked
  | some n => DeleteLastNodeOutcome.proceeds n

/- ----------------------------------------------------------------------
`updateNodesPropertyIfNeeded` — Nodes v1 → v2 upgrade on cluster load
(lib/server/resources/operations/cluster.go, lines 144-203)
---------------------------------------------------------------------- -/

/-- The cluster's Nodes properties as the loader sees them: the legacy v1
payload (zero value when absent) and the v2 payload when present
(`props.Lookup(NodesV2)`). -/
structure NodesProps where
  nodesV1 : ClusterNodesV1
  nodesV2 : Option ClusterNodesV2
deriving DecidableEq, Repr

/-- One iteration of the upgrade loops of `updateNodesPropertyIfNeeded`:

    nodesV2.GlobalLastIndex++
    node := &propertiesv2.ClusterNode{
        ID: i.ID, NumericalID: nodesV2.GlobalLastIndex,
        Name: i.Name, PrivateIP: i.PrivateIP, PublicIP: i.PublicIP,
    }

The accumulator carries `GlobalLastIndex` and the list being appended to. -/
def upgradeNodeStep (acc : Nat × List ClusterNode) (i : ClusterNodeV1) :
    Nat × List ClusterNode :=
  let g := acc.1 + 1
  (g, acc.2 ++ [{ id := i.id, numericalID := g, name := i.name,
                  privateIP := i.privateIP, publicIP := i.publicIP }])

/-- Transcription of `updateNodesPropertyIfNeeded`: if `NodesV2` is already
present, return unchanged; otherwise walk `nodesV1.Masters` then
`nodesV1.PrivateNodes` through `upgradeNodeStep` (the v2 payload starts
from the zero value `props.Alter` materializes) and copy
`MasterLastIndex`/`PrivateLastIndex` over. -/
def updateNodesPropertyIfNeeded (p : NodesProps) : NodesProps :=
  match p.nodesV2 with
  | some _ => p
  | none =>
    let v2 := ClusterNodesV2.zero
    let ms := p.nodesV1.masters.foldl upgradeNodeStep (v2.globalLastIndex, v2.masters)
    let ns := p.nodesV1.privateNodes.foldl upgradeNodeStep (ms.1, v2.privateNodes)
    let v2' : ClusterNodesV2 :=
      { globalLastIndex := ns.1, masters := ms.2, privateNodes := ns.2,
        masterLastIndex := p.nodesV1.masterLastIndex,
        privateLastIndex := p.nodesV1.privateLastIndex }
    { p with nodesV2 := some v2' }

/-- The `{id, name, privateIP, publicIP}` projection of a v2 node record,
used to state that the upgrade copies those fields. -/
def ClusterNode.fieldsV1 (n : ClusterNode) : ClusterNodeV1 :=
  { id := n.id, name := n.name, privateIP := n.privateIP, publicIP := n.publicIP }

/- ----------------------------------------------------------------------
`updateNetworkPropertyIfNeeded` — Network v1/v2 → v3 upgrade on load
(lib/server/resources/operations/cluster.go, lines 205-278)
---------------------------------------------------------------------- -/

/-- The legacy `Network` v1 property payload, with the fields the sources
read: `NetworkID`, `CIDR`, `GatewayID`, `GatewayIP`, `PublicIP`. -/
structure ClusterNetworkV1 where
  networkID : String
  cidr : String
  gatewayID : String
  gatewayIP : String
  publicIP : String
deriving DecidableEq, Repr

/-- The `Network` v2 property payload, with the fields the upgrade reads. -/
structure ClusterNetworkV2 where
  networkID : String
  cidr : String
  gatewayID : String
  gatewayIP : String
  secondaryGatewayID : String
  secondaryGatewayIP : String
  primaryPublicIP : String
  secondaryPublicIP : String
  defaultRouteIP : String
  endpointIP : String
  domain : String
deriving DecidableEq, Repr

/-- The `Network` v3 property payload (`propertiesv3.ClusterNetwork`). -/
structure ClusterNetworkV3 where
  networkID : String
  subnetID : String
  cidr : String
  gatewayID : String
  gatewayIP : String
  secondaryGatewayID : String
  secondaryGatewayIP : String
  primaryPublicIP : String
  secondaryPublicIP : String
  defaultRouteIP : String
  endpointIP : String
  domain : String
deriving DecidableEq, Repr

/-- The v3 config built from a v2 payload in `updateNetworkPropertyIfNeeded`
(in v2, `NetworkID` actually held the subnet ID):

    config = &propertiesv3.ClusterNetwork{
        NetworkID: "", SubnetID: networkV2.NetworkID, CIDR: networkV2.CIDR,
        GatewayID: ..., GatewayIP: ..., SecondaryGatewayID: ...,
        SecondaryGatewayIP: ..., PrimaryPublicIP: ..., SecondaryPublicIP: ...,
        DefaultRouteIP: ..., EndpointIP: ..., Domain: ...,
    }
-/
def configFromNetworkV2 (v2 : ClusterNetworkV2) : ClusterNetworkV3 :=
  { networkID := ""
    subnetID := v2.networkID
    cidr := v2.cidr
    gatewayID := v2.gatewayID
    gatewayIP := v2.gatewayIP
    secondaryGatewayID := v2.secondaryGatewayID
    secondaryGatewayIP := v2.secondaryGatewayIP
    primaryPublicIP := v2.primaryPublicIP
    secondaryPublicIP := v2.secondaryPublicIP
    defaultRouteIP := v2.defaultRouteIP
    endpointIP := v2.endpointIP
    domain := v2.domain }

/-- The v3 config built from a v1 payload in `updateNetworkPropertyIfNeeded`;
the Go composite literal sets only these fields, every other field keeps its
zero value (empty string), in particular `NetworkID`:

    config = &propertiesv3.ClusterNetwork{
        SubnetID: networkV1.NetworkID, CIDR: networkV1.CIDR,
        GatewayID: networkV1.GatewayID, GatewayIP: networkV1.GatewayIP,
        DefaultRouteIP: networkV1.GatewayIP, EndpointIP: networkV1.PublicIP,
    }
-/
def configFromNetworkV1 (v1 : ClusterNetworkV1) : ClusterNetworkV3 :=
  { networkID := ""
    subnetID := v1.networkID
    cidr := v1.cidr
    gatewayID := v1.gatewayID
    gatewayIP := v1.gatewayIP
    secondaryGatewayID := ""
    secondaryGatewayIP := ""
    primaryPublicIP := ""
    secondaryPublicIP := ""
    defaultRouteIP := v1.gatewayIP
    endpointIP := v1.publicIP
    domain := "" }

/-- The cluster's Network properties as the loader sees them: v1 payload
(zero value when absent), and v2/v3 payloads when present
(`props.Lookup`). -/
structure NetworkProps where
  networkV1 : ClusterNetworkV1
  networkV2 : Option ClusterNetworkV2
  networkV3 : Option ClusterNetworkV3
deriving DecidableEq, Repr

/-- Transcription of `updateNetworkPropertyIfNeeded`: return unchanged when
`NetworkV3` is present; otherwise build the v3 config from `NetworkV2` when
present, else from `NetworkV1`, and store it (`networkV3.Replace(config)`). -/
def updateNetworkPropertyIfNeeded (p : NetworkProps) : NetworkProps :=
  match p.networkV3 with
  | some _ => p
  | none =>
    match p.networkV2 with
    | some v2 => { p with networkV3 := some (configFromNetworkV2 v2) }
    | none => { p with networkV3 := some (configFromNetworkV1 p.networkV1) }

/- ----------------------------------------------------------------------
Concrete data used by counterexamples and witnesses
---------------------------------------------------------------------- -/

/-- A concrete private node, first of three. -/
def sampleNode1 : ClusterNode :=
  { id := "host-a", numericalID := 1, name := "c1-node-1",
    privateIP := "192.168.200.10", publicIP := "" }

/-- A concrete private node, second of three. -/
def sampleNode2 : ClusterNode :=
  { id := "host-b", numericalID := 2, name := "c1-node-2",
    privateIP := "192.168.200.11", publicIP := "" }

/-- A concrete private node, third of three. -/
def sampleNode3 : ClusterNode :=
  { id := "host-c", numericalID := 3, name := "c1-node-3",
    privateIP := "192.168.200.12", publicIP := "" }

/-- A concrete freshly created host. -/
def sampleHost : HostInfo :=
  { id := "host-m", name := "c1-master-1",
    privateIP := "192.168.200.20", publicIP := "" }

/-- A second concrete freshly created host. -/
def sampleHost2 : HostInfo :=
  { id := "host-n", name := "c1-node-9",
    privateIP := "192.168.200.21", publicIP := "" }

/-- The initial state of a `CreateOne` run on a brand-new cluster. -/
def emptyCreateState : CreateOneState :=
  { nodes := ClusterNodesV2.zero, hostExists := false }

/- ----------------------------------------------------------------------
Helper lemmas
---------------------------------------------------------------------- -/

theorem applyCreate_globalLastIndex (st : ClusterNodesV2) (e : CreateEvent) :
    (applyCreate st e).globalLastIndex = st.globalLastIndex + 1 := by
  cases e <;> rfl

theorem assignedIDs_gt (st : ClusterNodesV2) (evs : List CreateEvent) :
    ∀ x ∈ assignedIDs st evs, st.globalLastIndex < x := by
  induction evs generalizing st with
  | nil => intro x hx; cases hx
  | cons e evs ih =>
    intro x hx
    rcases List.mem_cons.mp hx with h | h
    · omega
    · have := ih (applyCreate st e) x h
      rw [applyCreate_globalLastIndex] at this
      omega

theorem assignedIDs_pairwise (st : ClusterNodesV2) (evs : List CreateEvent) :
    (assignedIDs st evs).Pairwise (· < ·) := by
  induction evs generalizing st with
  | nil => exact List.Pairwise.nil
  | cons e evs ih =>
    refine List.pairwise_cons.mpr ⟨?_, ih (applyCreate st e)⟩
    intro a ha
    have := assignedIDs_gt (applyCreate st e) evs a ha
    rw [applyCreate_globalLastIndex] at this
    omega

theorem recordedIDs_le_of_wf {st : ClusterNodesV2} (hwf : NodesWF st) :
    ∀ x ∈ recordedIDs st, x ≤ st.globalLastIndex := by
  intro x hx
  obtain ⟨n, hn, rfl⟩ := List.mem_map.mp hx
  exact hwf.1 n hn

theorem registerMaster_wf (h : HostInfo) (st : ClusterNodesV2) (hwf : NodesWF st) :
    NodesWF (registerMaster h st) := by
  constructor
  · intro n hn
    simp only [registerMaster, List.append_assoc, List.mem_append, List.mem_singleton] at hn
    rcases hn with hn | hn | hn
    · exact Nat.le_succ_of_le (hwf.1 n (List.mem_append_left _ hn))
    · subst hn; exact Nat.le_refl _
    · exact Nat.le_succ_of_le (hwf.1 n (List.mem_append_right _ hn))
  · have hperm :
        ((st.masters ++ [newNode h (st.globalLastIndex + 1)]) ++
          st.privateNodes).Perm
        (newNode h (st.globalLastIndex + 1) ::
          (st.masters ++ st.privateNodes)) := by
      rw [List.append_assoc, List.singleton_append]
      exact List.perm_middle
    have hmap := hperm.map ClusterNode.numericalID
    refine (hmap.nodup_iff).mpr ?_
    simp only [List.map_cons]
    refine List.nodup_cons.mpr ⟨?_, hwf.2⟩
    intro hmem
    have := recordedIDs_le_of_wf hwf _ hmem
    simp only [newNode] at this
    omega

theorem registerNode_wf (h : HostInfo) (st : ClusterNodesV2) (hwf : NodesWF st) :
    NodesWF (registerNode h st) := by
  constructor
  · intro n hn
    simp only [registerNode, List.mem_append, List.mem_singleton] at hn
    rcases hn with hn | hn | hn
    · exact Nat.le_succ_of_le (hwf.1 n (List.mem_append_left _ hn))
    · exact Nat.le_succ_of_le (hwf.1 n (List.mem_append_right _ hn))
    · subst hn; exact Nat.le_refl _
  · have hperm :
        (st.masters ++
          (st.privateNodes ++ [newNode h (st.globalLastIndex + 1)])).Perm
        (newNode h (st.globalLastIndex + 1) ::
          (st.masters ++ st.privateNodes)) := by
      rw [← List.append_assoc]
      have := @List.perm_middle _ (newNode h (st.globalLastIndex + 1))
        (st.masters ++ st.privateNodes) []
      simpa using this
    have hmap := hperm.map ClusterNode.numericalID
    refine (hmap.nodup_iff).mpr ?_
    simp only [List.map_cons]
    refine List.nodup_cons.mpr ⟨?_, hwf.2⟩
    intro hmem
    have := recordedIDs_le_of_wf hwf _ hmem
    simp only [newNode] at this
    omega

theorem applyCreate_wf (st : ClusterNodesV2) (e : CreateEvent) (hwf : NodesWF st) :
    NodesWF (applyCreate st e) := by
  cases e with
  | master h => exact registerMaster_wf h st hwf
  | node h => exact registerNode_wf h st hwf

theorem runCreates_wf (st : ClusterNodesV2) (evs : List CreateEvent) (hwf : NodesWF st) :
    NodesWF (runCreates st evs) := by
  induction evs generalizing st with
  | nil => exact hwf
  | cons e evs ih => exact ih (applyCreate st e) (applyCreate_wf st e hwf)

/- ----------------------------------------------------------------------
Claim theorems
---------------------------------------------------------------------- -/

/-- C1. The claim says a successful Stop followed by Start brings `State`
back to `Nominal` (Start restarting all hosts), and that a second Start is
a no-op success. The code refutes it: `Stop` from `Nominal` does shut the
cluster down to `Stopped`, but `Start` returns nil immediately whenever the
state is `Stopped` (or `Stopping`), so after Stop→Start the state is still
`Stopped`, no host is restarted and `Nominal` is never re-established; a
Start from `Nominal` returns a NotAvailable error rather than success;
and the restart branch of `Start` (set `Starting`, start gateways, masters
and nodes, set `Nominal`) is unreachable for every possible state, because
the only state that reaches it would have to be `Stopped`, which already
returned. -/
theorem start_after_stop_is_silent_noop :
    stopAction ClusterState.Nominal = StopAction.shutdown ∧
    startAction ClusterState.Stopped = StartAction.noop ∧
    startAction ClusterState.Nominal = StartAction.notAvailable ∧
    (∀ s, startAction s ≠ StartAction.restart) := by decide

/-- C2. The claim says `Shrink(k)` on `n` private nodes removes exactly the
last `k` entries, keeping the first `n-k` in order, and that on deletion
failure the list is restored unchanged. The code's Alter keeps
`PrivateNodes[:first-1]` with `first = n-k`: on `[node1, node2, node3]`
with `k = 1` it keeps only `[node1]` instead of `[node1, node2]`, so the
restore `kept ++ toRemove` also cannot rebuild the original list; and with
`k = n` the slice expression panics (`first-1` underflows a Go `uint`). -/
theorem shrink_keeps_one_node_too_few :
    shrinkAlter [sampleNode1, sampleNode2, sampleNode3] 1
      = Except.ok ([sampleNode1], [sampleNode3]) ∧
    [sampleNode1, sampleNode2, sampleNode3].take 2 = [sampleNode1, sampleNode2] ∧
    shrinkRestore [sampleNode1] [sampleNode3] ≠ [sampleNode1, sampleNode2, sampleNode3] ∧
    shrinkAlter [sampleNode1] 1 = Except.error ShrinkErr.sliceBoundsPanic := by
  refine ⟨rfl, rfl, ?_, rfl⟩
  decide

/-- C3. The claim says lifecycle calls whose transition is illegal for the
current state — Start from `Nominal`, Stop from `Stopped` — succeed as
idempotent no-ops. Stop from `Stopped` does return success without writing
anything, but Start from `Nominal` (or `Degraded`) returns
`fail.NotAvailableError("failed to start cluster because of it's current
state: ...")`, because the no-op guard of `Start` tests `Stopping/Stopped` —
the states Start should act on — instead of `Nominal/Degraded`. -/
theorem start_from_nominal_is_not_a_noop :
    stopAction ClusterState.Stopped = StopAction.noop ∧
    startAction ClusterState.Nominal = StartAction.notAvailable ∧
    startAction ClusterState.Degraded = StartAction.notAvailable := by decide

/-- C4. The claim says every controller operation nil-checks the very hook
it invokes, so a nil hook is never dereferenced. The code checks the wrong
hook in two places: `taskConfigureMaster` gates the call of
`makers.ConfigureMaster` on `makers.ConfigureNode != nil`, and
`joinNodesFromList` gates the per-host calls of `makers.JoinNodeToCluster`
on `makers.JoinMasterToCluster != nil`; with the tested sibling hook set
and the invoked hook nil, a nil function is called (a Go panic). In
addition a nil `GetState` hook yields a NotImplemented error, not a no-op. -/
theorem nil_hook_can_be_invoked :
    taskConfigureMasterHookCall
      { configureNode := true, configureMaster := false, joinNodeToCluster := false,
        joinMasterToCluster := false, configureCluster := false, getState := false }
      = HookCall.nilDereference ∧
    joinNodesFromListHookCall
      { configureNode := false, configureMaster := false, joinNodeToCluster := false,
        joinMasterToCluster := true, configureCluster := false, getState := false }
      true
      = JoinNodesCall.nilDereference ∧
    getStateDispatch
      { configureNode := true, configureMaster := true, joinNodeToCluster := true,
        joinMasterToCluster := true, configureCluster := true, getState := false }
      = GetStateDispatch.notImplementedError := by decide

/-- C9 counterexample. The claim says node creation with `count = 0`
returns success and leaves the metadata unchanged. `AddNodes` instead
returns `fail.InvalidParameterError("count", "must be an int > 0")` —
an error, though indeed without touching the metadata — and
`taskCreateNodes` hits the identical `Count < 1` guard. -/
theorem add_nodes_zero_count_errors :
    AddNodes 0 [] ClusterNodesV2.zero = (Except.error (), ClusterNodesV2.zero) ∧
    addNodesGuard 0 = CreateNodesGuard.invalidParameter ∧
    taskCreateNodesGuard 0 = CreateNodesGuard.invalidParameter := by
  refine ⟨?_, rfl, rfl⟩
  rfl

/-- C9 amended: node creation with `count = 0` returns an InvalidParameter
error before any metadata access, leaving the cluster metadata unchanged;
the "no nodes to create" success branch of `taskCreateNodes` is dead code,
unreachable for every count. -/
theorem add_nodes_zero_count_amended (hosts : List HostInfo) (st : ClusterNodesV2) :
    AddNodes 0 hosts st = (Except.error (), st) ∧
    (∀ c, taskCreateNodesGuard c ≠ CreateNodesGuard.zeroCountSuccess) := by
  refine ⟨rfl, ?_⟩
  intro c
  match c with
  | 0 => simp [taskCreateNodesGuard]
  | c + 1 => simp [taskCreateNodesGuard]

/-- C10. In `DeleteLastNode`, whenever `PrivateNodes` is non-empty the
access `PrivateNodes[len-1]` selects the last entry (which is never a nil
pointer, since entries are appended as fresh `&ClusterNode{...}`), and on
an empty list the access is out of bounds (a Go runtime panic); hence the
`if node == nil` guard returning `fail.NotFoundError("failed to find last
node")` can never be the way the operation terminates. -/
theorem delete_last_node_not_found_unreachable (nodes : List ClusterNode) :
    (∀ hne : nodes ≠ [],
      deleteLastNodeSelect nodes = DeleteLastNodeOutcome.proceeds (nodes.getLast hne)) ∧
    (nodes = [] → deleteLastNodeSelect nodes = DeleteLastNodeOutcome.panicked) ∧
    deleteLastNodeSelect nodes ≠ DeleteLastNodeOutcome.notFound := by
  refine ⟨?_, ?_, ?_⟩
  · intro hne
    have hlast : nodes[nodes.length - 1]? = some (nodes.getLast hne) := by
      rw [← List.getLast?_eq_getElem?, List.getLast?_eq_getLast nodes hne]
    simp [deleteLastNodeSelect, hlast]
  · intro h
    subst h
    rfl
  · intro hcontra
    unfold deleteLastNodeSelect at hcontra
    rcases hget : nodes.get? (nodes.length - 1) with _ | n <;>
      rw [hget] at hcontra <;> exact DeleteLastNodeOutcome.noConfusion hcontra

/-- C10 witness: on the concrete one-node list the selection proceeds with
that node, and on the empty list it panics. -/
theorem delete_last_node_not_found_unreachable_witness :
    deleteLastNodeSelect [sampleNode1] = DeleteLastNodeOutcome.proceeds sampleNode1 ∧
    deleteLastNodeSelect ([] : List ClusterNode) = DeleteLastNodeOutcome.panicked := by
  constructor
  · have h := (delete_last_node_not_found_unreachable [sampleNode1]).1 (by simp)
    simpa using h
  · exact (delete_last_node_not_found_unreachable ([] : List ClusterNode)).2.1 rfl

/-- C5 counterexample. The claim says a failed CreateOne with
`keepOnFailure=false` leaves neither a host nor a metadata entry behind. In
`taskCreateMaster`, a failure of `installProxyCacheClient` — a step after
both the host creation and the metadata append — returns the error with no
cleanup at all: the run fails, the host still exists, and the appended
master record is still in the metadata. -/
theorem create_master_failure_leaks_host_and_record :
    (taskCreateMaster
        { hostCreateOk := true, metadataAlterOk := true,
          proxyCacheClientOk := false, nodeRequirementsOk := true }
        true sampleHost emptyCreateState).1 = false ∧
    (taskCreateMaster
        { hostCreateOk := true, metadataAlterOk := true,
          proxyCacheClientOk := false, nodeRequirementsOk := true }
        true sampleHost emptyCreateState).2.hostExists = true ∧
    (taskCreateMaster
        { hostCreateOk := true, metadataAlterOk := true,
          proxyCacheClientOk := false, nodeRequirementsOk := true }
        true sampleHost emptyCreateState).2.nodes.masters
      = [newNode sampleHost 1] := by
  refine ⟨rfl, rfl, rfl⟩

/-- C5 amended: with `keepOnFailure=false` (`NoKeep`), when the metadata
append fails both tasks delete the created host and the metadata is
untouched; in `taskCreateNode` the deferred cleanup also deletes the host
when an installation step fails, but the appended node record stays in the
metadata; and in `taskCreateMaster` an installation-step failure deletes
nothing — the host stays and the appended master record stays. -/
theorem create_one_failure_cleanup (run : CreateOneRun) (h : HostInfo)
    (st : CreateOneState) :
    (run.hostCreateOk = true → run.metadataAlterOk = false →
      taskCreateMaster run true h st = (false, { st with hostExists := false }) ∧
      taskCreateNode run true h st = (false, { st with hostExists := false })) ∧
    (run.hostCreateOk = true → run.metadataAlterOk = true →
      run.proxyCacheClientOk = false →
      (taskCreateNode run true h st).1 = false ∧
      (taskCreateNode run true h st).2.hostExists = false ∧
      (taskCreateNode run true h st).2.nodes = registerNode h st.nodes) ∧
    (run.hostCreateOk = true → run.metadataAlterOk = true →
      run.proxyCacheClientOk = false →
      (taskCreateMaster run true h st).1 = false ∧
      (taskCreateMaster run true h st).2.hostExists = true ∧
      (taskCreateMaster run true h st).2.nodes = registerMaster h st.nodes) := by
  refine ⟨?_, ?_, ?_⟩
  · intro h1 h2
    constructor <;> simp [taskCreateMaster, taskCreateNode, h1, h2]
  · intro h1 h2 h3
    refine ⟨?_, ?_, ?_⟩ <;> simp [taskCreateNode, h1, h2, h3]
  · intro h1 h2 h3
    refine ⟨?_, ?_, ?_⟩ <;> simp [taskCreateMaster, h1, h2, h3]

/-- C5 witness: the amended cleanup behavior at a concrete run, with the
metadata-failure hypothesis and the install-failure hypothesis each
discharged concretely. -/
theorem create_one_failure_cleanup_witness :
    taskCreateMaster
        { hostCreateOk := true, metadataAlterOk := false,
          proxyCacheClientOk := true, nodeRequirementsOk := true }
        true sampleHost emptyCreateState
      = (false, { nodes := ClusterNodesV2.zero, hostExists := false }) ∧
    (taskCreateNode
        { hostCreateOk := true, metadataAlterOk := true,
          proxyCacheClientOk := false, nodeRequirementsOk := true }
        true sampleHost emptyCreateState).2.hostExists = false ∧
    (taskCreateMaster
        { hostCreateOk := true, metadataAlterOk := true,
          proxyCacheClientOk := false, nodeRequirementsOk := true }
        true sampleHost emptyCreateState).2.hostExists = true := by
  refine ⟨?_, ?_, ?_⟩
  · have h := (create_one_failure_cleanup
      { hostCreateOk := true, metadataAlterOk := false,
        proxyCacheClientOk := true, nodeRequirementsOk := true }
      sampleHost emptyCreateState).1 rfl rfl
    exact h.1
  · have h := (create_one_failure_cleanup
      { hostCreateOk := true, metadataAlterOk := true,
        proxyCacheClientOk := false, nodeRequirementsOk := true }
      sampleHost emptyCreateState).2.1 rfl rfl rfl
    exact h.2.1
  · have h := (create_one_failure_cleanup
      { hostCreateOk := true, metadataAlterOk := true,
        proxyCacheClientOk := false, nodeRequirementsOk := true }
      sampleHost emptyCreateState).2.2 rfl rfl rfl
    exact h.2.1

/-- C6. Over any serialized sequence of successful CreateMaster/CreateNode
registrations (the order the cluster's exclusive `Alter` imposes on
possibly concurrent creations), the assigned `NumericalID`s are strictly
increasing in creation order — hence pairwise unique — and on a
well-formed cluster the metadata after the run still records pairwise
distinct `NumericalID`s. -/
theorem numericalIDs_strictly_increasing (st : ClusterNodesV2)
    (evs : List CreateEvent) :
    (assignedIDs st evs).Pairwise (· < ·) ∧
    (assignedIDs st evs).Nodup ∧
    (NodesWF st → (recordedIDs (runCreates st evs)).Nodup) := by
  refine ⟨assignedIDs_pairwise st evs, ?_, ?_⟩
  · exact (assignedIDs_pairwise st evs).imp Nat.ne_of_lt
  · intro hwf
    exact (runCreates_wf st evs hwf).2

/-- C6 witness: two concrete registrations on a fresh cluster, with the
well-formedness hypothesis discharged by computation. -/
theorem numericalIDs_strictly_increasing_witness :
    (recordedIDs (runCreates ClusterNodesV2.zero
        [CreateEvent.master sampleHost, CreateEvent.node sampleHost2])).Nodup :=
  (numericalIDs_strictly_increasing ClusterNodesV2.zero
      [CreateEvent.master sampleHost, CreateEvent.node sampleHost2]).2.2
    (by constructor
        · intro n hn
          simp [ClusterNodesV2.zero] at hn
        · decide)

/-- The list produced by folding `upgradeNodeStep` from index `g` over a v1
node list: each node is copied with the next sequential `NumericalID`. -/
def convertFromV1 (g : Nat) : List ClusterNodeV1 → List ClusterNode
  | [] => []
  | x :: xs =>
    { id := x.id, numericalID := g + 1, name := x.name,
      privateIP := x.privateIP, publicIP := x.publicIP } :: convertFromV1 (g + 1) xs

theorem foldl_upgradeNodeStep (l : List ClusterNodeV1) (g : Nat)
    (acc : List ClusterNode) :
    l.foldl upgradeNodeStep (g, acc) = (g + l.length, acc ++ convertFromV1 g l) := by
  induction l generalizing g acc with
  | nil => simp [convertFromV1]
  | cons x xs ih =>
    simp only [List.foldl_cons, upgradeNodeStep, convertFromV1, List.length_cons]
    rw [ih]
    refine Prod.ext ?_ ?_
    · simp; omega
    · simp

theorem convertFromV1_fields (g : Nat) (l : List ClusterNodeV1) :
    (convertFromV1 g l).map ClusterNode.fieldsV1 = l := by
  induction l generalizing g with
  | nil => rfl
  | cons x xs ih =>
    simp only [convertFromV1, List.map_cons, ih]
    rfl

theorem convertFromV1_ids (g : Nat) (l : List ClusterNodeV1) :
    (convertFromV1 g l).map ClusterNode.numericalID = List.range' (g + 1) l.length := by
  induction l generalizing g with
  | nil => rfl
  | cons x xs ih =>
    simp only [convertFromV1, List.map_cons, ih, List.length_cons]
    rw [List.range'_succ]

theorem convertFromV1_length (g : Nat) (l : List ClusterNodeV1) :
    (convertFromV1 g l).length = l.length := by
  induction l generalizing g with
  | nil => rfl
  | cons x xs ih => simp [convertFromV1, ih]

/-- C7. The `Nodes v1 → v2` upgrade run on cluster load copies
`{id, name, privateIP, publicIP}` for every master and every private node
preserving the order of both lists, assigns fresh sequential
`NumericalID`s (1..m to the masters, m+1..m+n to the private nodes),
preserves `MasterLastIndex` and `PrivateLastIndex`, and is idempotent:
with the v2 property already present the load changes nothing. -/
theorem nodes_v1_to_v2_upgrade_correct (p : NodesProps) :
    (p.nodesV2 = none →
      ∃ v2, (updateNodesPropertyIfNeeded p).nodesV2 = some v2 ∧
        v2.masters.map ClusterNode.fieldsV1 = p.nodesV1.masters ∧
        v2.privateNodes.map ClusterNode.fieldsV1 = p.nodesV1.privateNodes ∧
        v2.masters.map ClusterNode.numericalID
          = List.range' 1 p.nodesV1.masters.length ∧
        v2.privateNodes.map ClusterNode.numericalID
          = List.range' (p.nodesV1.masters.length + 1) p.nodesV1.privateNodes.length ∧
        v2.masterLastIndex = p.nodesV1.masterLastIndex ∧
        v2.privateLastIndex = p.nodesV1.privateLastIndex) ∧
    (∀ v, p.nodesV2 = some v → updateNodesPropertyIfNeeded p = p) ∧
    updateNodesPropertyIfNeeded (updateNodesPropertyIfNeeded p)
      = updateNodesPropertyIfNeeded p := by
  refine ⟨?_, ?_, ?_⟩
  · intro hnone
    simp only [updateNodesPropertyIfNeeded, hnone]
    rw [foldl_upgradeNodeStep, foldl_upgradeNodeStep]
    refine ⟨_, rfl, ?_, ?_, ?_, ?_, rfl, rfl⟩
    · simpa [ClusterNodesV2.zero] using
        convertFromV1_fields 0 p.nodesV1.masters
    · simpa [ClusterNodesV2.zero] using
        convertFromV1_fields p.nodesV1.masters.length p.nodesV1.privateNodes
    · simpa [ClusterNodesV2.zero] using
        convertFromV1_ids 0 p.nodesV1.masters
    · simpa [ClusterNodesV2.zero] using
        convertFromV1_ids p.nodesV1.masters.length p.nodesV1.privateNodes
  · intro v hv
    simp [updateNodesPropertyIfNeeded, hv]
  · rcases hv : p.nodesV2 with _ | v
    · simp only [updateNodesPropertyIfNeeded, hv]
    · simp [updateNodesPropertyIfNeeded, hv]

/-- C7 witness: a concrete legacy cluster (one master, one private node,
v2 property absent) is upgraded to a non-absent v2 payload, and a cluster
that already carries the v2 property is left untouched. -/
theorem nodes_v1_to_v2_upgrade_correct_witness :
    (updateNodesPropertyIfNeeded
        { nodesV1 :=
            { masters := [{ id := "m1", name := "c1-master-1",
                            privateIP := "10.0.0.1", publicIP := "" }],
              privateNodes := [{ id := "n1", name := "c1-node-1",
                                 privateIP := "10.0.0.2", publicIP := "" }],
              masterLastIndex := 1, privateLastIndex := 1 },
          nodesV2 := none }).nodesV2 ≠ none ∧
    updateNodesPropertyIfNeeded
        { nodesV1 :=
            { masters := [], privateNodes := [],
              masterLastIndex := 0, privateLastIndex := 0 },
          nodesV2 := some ClusterNodesV2.zero }
      = { nodesV1 :=
            { masters := [], privateNodes := [],
              masterLastIndex := 0, privateLastIndex := 0 },
          nodesV2 := some ClusterNodesV2.zero } := by
  constructor
  · obtain ⟨v2, hv2, -⟩ := (nodes_v1_to_v2_upgrade_correct
      { nodesV1 :=
          { masters := [{ id := "m1", name := "c1-master-1",
                          privateIP := "10.0.0.1", publicIP := "" }],
            privateNodes := [{ id := "n1", name := "c1-node-1",
                               privateIP := "10.0.0.2", publicIP := "" }],
            masterLastIndex := 1, privateLastIndex := 1 },
        nodesV2 := none }).1 rfl
    simp [hv2]
  · exact (nodes_v1_to_v2_upgrade_correct
      { nodesV1 :=
          { masters := [], privateNodes := [],
            masterLastIndex := 0, privateLastIndex := 0 },
        nodesV2 := some ClusterNodesV2.zero }).2.1 ClusterNodesV2.zero rfl

/-- C8. The `Network` property upgrade run on cluster load: starting from
v2 (v3 absent, v2 present), the resulting v3 has `SubnetID` equal to
`v2.NetworkID`, an empty `NetworkID`, and the HA/gateway/public-IP fields
carried over unchanged; starting from v1 (v3 and v2 both absent), the
resulting v3 has `SubnetID = v1.NetworkID`, `DefaultRouteIP = v1.GatewayIP`,
`EndpointIP = v1.PublicIP` and an empty `NetworkID`. -/
theorem network_upgrade_correct (p : NetworkProps) :
    (p.networkV3 = none → ∀ v2, p.networkV2 = some v2 →
      ∃ r, (updateNetworkPropertyIfNeeded p).networkV3 = some r ∧
        r.subnetID = v2.networkID ∧
        r.networkID = "" ∧
        r.cidr = v2.cidr ∧
        r.gatewayID = v2.gatewayID ∧
        r.gatewayIP = v2.gatewayIP ∧
        r.secondaryGatewayID = v2.secondaryGatewayID ∧
        r.secondaryGatewayIP = v2.secondaryGatewayIP ∧
        r.primaryPublicIP = v2.primaryPublicIP ∧
        r.secondaryPublicIP = v2.secondaryPublicIP ∧
        r.defaultRouteIP = v2.defaultRouteIP ∧
        r.endpointIP = v2.endpointIP ∧
        r.domain = v2.domain) ∧
    (p.networkV3 = none → p.networkV2 = none →
      ∃ r, (updateNetworkPropertyIfNeeded p).networkV3 = some r ∧
        r.subnetID = p.networkV1.networkID ∧
        r.defaultRouteIP = p.networkV1.gatewayIP ∧
        r.endpointIP = p.networkV1.publicIP ∧
        r.networkID = "") := by
  constructor
  · intro h3 v2 h2
    refine ⟨configFromNetworkV2 v2, ?_, rfl, rfl, rfl, rfl, rfl, rfl, rfl, rfl,
      rfl, rfl, rfl, rfl⟩
    simp [updateNetworkPropertyIfNeeded, h3, h2]
  · intro h3 h2
    refine ⟨configFromNetworkV1 p.networkV1, ?_, rfl, rfl, rfl, rfl⟩
    simp [updateNetworkPropertyIfNeeded, h3, h2]

/-- C8 witness: both upgrade paths at concrete legacy payloads — a
v2-bearing cluster and a v1-only cluster — each produce a v3 payload. -/
theorem network_upgrade_correct_witness :
    (updateNetworkPropertyIfNeeded
        { networkV1 := { networkID := "", cidr := "", gatewayID := "",
                         gatewayIP := "", publicIP := "" },
          networkV2 := some
            { networkID := "subnet-1", cidr := "192.168.200.0/24",
              gatewayID := "gw-1", gatewayIP := "192.168.200.1",
              secondaryGatewayID := "gw-2", secondaryGatewayIP := "192.168.200.2",
              primaryPublicIP := "1.2.3.4", secondaryPublicIP := "1.2.3.5",
              defaultRouteIP := "192.168.200.1", endpointIP := "1.2.3.4",
              domain := "example.org" },
          networkV3 := none }).networkV3 ≠ none ∧
    (updateNetworkPropertyIfNeeded
        { networkV1 := { networkID := "net-legacy", cidr := "10.0.0.0/24",
                         gatewayID := "gw-legacy", gatewayIP := "10.0.0.1",
                         publicIP := "5.6.7.8" },
          networkV2 := none,
          networkV3 := none }).networkV3 ≠ none := by
  constructor
  · obtain ⟨r, hr, -⟩ := (network_upgrade_correct
      { networkV1 := { networkID := "", cidr := "", gatewayID := "",
                       gatewayIP := "", publicIP := "" },
        networkV2 := some
          { networkID := "subnet-1", cidr := "192.168.200.0/24",
            gatewayID := "gw-1", gatewayIP := "192.168.200.1",
            secondaryGatewayID := "gw-2", secondaryGatewayIP := "192.168.200.2",
            primaryPublicIP := "1.2.3.4", secondaryPublicIP := "1.2.3.5",
            defaultRouteIP := "192.168.200.1", endpointIP := "1.2.3.4",
            domain := "example.org" },
        networkV3 := none }).1 rfl _ rfl
    simp [hr]
  · obtain ⟨r, hr, -⟩ := (network_upgrade_correct
      { networkV1 := { networkID := "net-legacy", cidr := "10.0.0.0/24",
                       gatewayID := "gw-legacy", gatewayIP := "10.0.0.1",
                       publicIP := "5.6.7.8" },
        networkV2 := none,
        networkV3 := none }).2 rfl rfl
    simp [hr]

end SafeScale
